import Mathlib

/-!
# Feed resource API handlers (server/api/controller/feed.go)

A shallow embedding of the six handlers of the feed controller: CreateFeed,
RefreshFeed, UpdateFeed, GetFeeds, GetFeed and RemoveFeed.

Modelling conventions.

* A Go multi-value return `(v, err)` is a pair whose last component is an
  `Option GoError`; `none` is the nil error.
* A `*model.Feed` is an `Option Feed` (`none` is the nil pointer); the record
  type `Feed` itself is declared in package model and is a type parameter.
  Feeds are handled by value: `Merge` is a function from the fetched feed and
  the decoded payload to the merged feed, and a collaborator does not alter a
  feed through the pointer it is handed.
* The collaborators (`feedHandler`, `store`) are stateful black boxes: every
  method takes the collaborators' current state `σ` and returns its result
  together with the next state.
* A handler returns the sequence of observable events it performed
  (collaborator calls with their arguments, response writes) and the final
  collaborator state.
* Collaborator calls and `Merge` are assumed to return.
-/

namespace FeedApi

/-! ## Data model -/

/-- A Go error value, identified by the text of its Error method. -/
structure GoError where
  text : String
deriving DecidableEq, Repr

/-- Go `errors.New`: the error value carrying the given text. -/
def errors.New (text : String) : GoError := ⟨text⟩

/-- The value handed to a JSON response writer: a feed pointer or a feed list. -/
inductive JsonBody (Feed : Type) where
  | feed (f : Option Feed)
  | feeds (fs : List Feed)
deriving DecidableEq, Repr

/-- One call of a writer of `response.Json()`. -/
inductive Response (Feed : Type) where
  | BadRequest (err : GoError)
  | NotFound (err : GoError)
  | ServerError (err : GoError)
  | Created (body : JsonBody Feed)
  | Standard (body : JsonBody Feed)
  | NoContent
deriving DecidableEq, Repr

/-- Modelled from the spec: the HTTP status code emitted by each JSON response
writer of package core (BadRequest, NotFound, ServerError, Created, Standard,
NoContent), which is not part of the controller source. -/
def Response.status {Feed : Type} : Response Feed → Nat
  | .BadRequest _ => 400
  | .NotFound _ => 404
  | .ServerError _ => 500
  | .Created _ => 201
  | .Standard _ => 200
  | .NoContent => 204

/-- The JSON body carried by a response, if it has one. -/
def Response.body {Feed : Type} : Response Feed → Option (JsonBody Feed)
  | .Created b => some b
  | .Standard b => some b
  | _ => none

/-- A call of a method of `feedHandler` or `store`, with its arguments. -/
inductive Call (Feed : Type) where
  | CreateFeed (userID categoryID : Int) (feedURL : String)
  | RefreshFeed (userID feedID : Int)
  | GetFeedById (userID feedID : Int)
  | GetFeeds (userID : Int)
  | UpdateFeed (feed : Feed)
  | FeedExists (userID feedID : Int)
  | RemoveFeed (userID feedID : Int)
deriving DecidableEq, Repr

/-- An observable step of a handler. -/
inductive Event (Feed : Type) where
  | call (c : Call Feed)
  | write (r : Response Feed)
deriving DecidableEq, Repr

/-- The outcome of running a handler: its events in order and the final
collaborator state. -/
structure Run (Feed σ : Type) where
  events : List (Event Feed)
  world : σ
deriving DecidableEq, Repr

/-- The authenticated context `core.Context`. -/
structure Context where
  GetUserID : Int

/-- The request `core.Request`: integer path parameters by name and the body. -/
structure Request where
  GetIntegerParam : String → Int × Option GoError
  GetBody : String

/-- The package-level functions the handlers use: the decoders of package
payload and the Merge method of `model.Feed`. -/
structure Packages (Feed : Type) where
  DecodeFeedCreationPayload : String → String × Int × Option GoError
  DecodeFeedModificationPayload : String → Option Feed × Option GoError
  Merge : Feed → Option Feed → Feed

/-- The feed handler collaborator. -/
structure FeedHandler (Feed σ : Type) where
  CreateFeed : Int → Int → String → σ → (Option Feed × Option GoError) × σ
  RefreshFeed : Int → Int → σ → Option GoError × σ

/-- The storage collaborator. -/
structure Store (Feed σ : Type) where
  GetFeedById : Int → Int → σ → (Option Feed × Option GoError) × σ
  GetFeeds : Int → σ → (List Feed × Option GoError) × σ
  UpdateFeed : Feed → σ → Option GoError × σ
  FeedExists : Int → Int → σ → Bool × σ
  RemoveFeed : Int → Int → σ → Option GoError × σ

/-- The controller: its two collaborators. -/
structure Controller (Feed σ : Type) where
  feedHandler : FeedHandler Feed σ
  store : Store Feed σ

/-! ## The handlers -/

section Handlers

variable {Feed σ : Type}

/-- CreateFeed is the API handler to create a new feed. -/
def Controller.CreateFeed (c : Controller Feed σ) (pkg : Packages Feed)
    (ctx : Context) (request : Request) (w : σ) : Run Feed σ :=
  let userID := ctx.GetUserID
  let d := pkg.DecodeFeedCreationPayload request.GetBody
  let feedURL := d.1
  let categoryID := d.2.1
  match d.2.2 with
  | some err => ⟨[.write (.BadRequest err)], w⟩
  | none =>
    let r := c.feedHandler.CreateFeed userID categoryID feedURL w
    let feed := r.1.1
    match r.1.2 with
    | some _ =>
      ⟨[.call (.CreateFeed userID categoryID feedURL),
        .write (.ServerError (errors.New "Unable to create this feed"))], r.2⟩
    | none =>
      ⟨[.call (.CreateFeed userID categoryID feedURL),
        .write (.Created (.feed feed))], r.2⟩

/-- RefreshFeed is the API handler to refresh a feed. -/
def Controller.RefreshFeed (c : Controller Feed σ)
    (ctx : Context) (request : Request) (w : σ) : Run Feed σ :=
  let userID := ctx.GetUserID
  let p := request.GetIntegerParam "feedID"
  let feedID := p.1
  match p.2 with
  | some err => ⟨[.write (.BadRequest err)], w⟩
  | none =>
    let r := c.feedHandler.RefreshFeed userID feedID w
    match r.1 with
    | some _ =>
      ⟨[.call (.RefreshFeed userID feedID),
        .write (.ServerError (errors.New "Unable to refresh this feed"))], r.2⟩
    | none =>
      ⟨[.call (.RefreshFeed userID feedID), .write .NoContent], r.2⟩

/-- UpdateFeed is the API handler that is used to update a feed. -/
def Controller.UpdateFeed (c : Controller Feed σ) (pkg : Packages Feed)
    (ctx : Context) (request : Request) (w : σ) : Run Feed σ :=
  let userID := ctx.GetUserID
  let p := request.GetIntegerParam "feedID"
  let feedID := p.1
  match p.2 with
  | some err => ⟨[.write (.BadRequest err)], w⟩
  | none =>
    let d := pkg.DecodeFeedModificationPayload request.GetBody
    let newFeed := d.1
    match d.2 with
    | some err => ⟨[.write (.BadRequest err)], w⟩
    | none =>
      let g := c.store.GetFeedById userID feedID w
      match g.1.2 with
      | some _ =>
        ⟨[.call (.GetFeedById userID feedID),
          .write (.NotFound (errors.New "Unable to find this feed"))], g.2⟩
      | none =>
        match g.1.1 with
        | none =>
          ⟨[.call (.GetFeedById userID feedID),
            .write (.NotFound (errors.New "Feed not found"))], g.2⟩
        | some originalFeed =>
          let merged := pkg.Merge originalFeed newFeed
          let u := c.store.UpdateFeed merged g.2
          match u.1 with
          | some _ =>
            ⟨[.call (.GetFeedById userID feedID), .call (.UpdateFeed merged),
              .write (.ServerError (errors.New "Unable to update this feed"))], u.2⟩
          | none =>
            ⟨[.call (.GetFeedById userID feedID), .call (.UpdateFeed merged),
              .write (.Created (.feed (some merged)))], u.2⟩

/-- GetFeeds is the API handler that gets all feeds that belong to the given user. -/
def Controller.GetFeeds (c : Controller Feed σ)
    (ctx : Context) (_request : Request) (w : σ) : Run Feed σ :=
  let r := c.store.GetFeeds ctx.GetUserID w
  let feeds := r.1.1
  match r.1.2 with
  | some _ =>
    ⟨[.call (.GetFeeds ctx.GetUserID),
      .write (.ServerError (errors.New "Unable to fetch feeds from the database"))], r.2⟩
  | none =>
    ⟨[.call (.GetFeeds ctx.GetUserID), .write (.Standard (.feeds feeds))], r.2⟩

/-- GetFeed is the API handler to get a feed. -/
def Controller.GetFeed (c : Controller Feed σ)
    (ctx : Context) (request : Request) (w : σ) : Run Feed σ :=
  let userID := ctx.GetUserID
  let p := request.GetIntegerParam "feedID"
  let feedID := p.1
  match p.2 with
  | some err => ⟨[.write (.BadRequest err)], w⟩
  | none =>
    let g := c.store.GetFeedById userID feedID w
    match g.1.2 with
    | some _ =>
      ⟨[.call (.GetFeedById userID feedID),
        .write (.ServerError (errors.New "Unable to fetch this feed"))], g.2⟩
    | none =>
      match g.1.1 with
      | none =>
        ⟨[.call (.GetFeedById userID feedID),
          .write (.NotFound (errors.New "Feed not found"))], g.2⟩
      | some feed =>
        ⟨[.call (.GetFeedById userID feedID),
          .write (.Standard (.feed (some feed)))], g.2⟩

/-- RemoveFeed is the API handler to remove a feed. -/
def Controller.RemoveFeed (c : Controller Feed σ)
    (ctx : Context) (request : Request) (w : σ) : Run Feed σ :=
  let userID := ctx.GetUserID
  let p := request.GetIntegerParam "feedID"
  let feedID := p.1
  match p.2 with
  | some err => ⟨[.write (.BadRequest err)], w⟩
  | none =>
    let x := c.store.FeedExists userID feedID w
    if !x.1 then
      ⟨[.call (.FeedExists userID feedID),
        .write (.NotFound (errors.New "Feed not found"))], x.2⟩
    else
      let r := c.store.RemoveFeed userID feedID x.2
      match r.1 with
      | some _ =>
        ⟨[.call (.FeedExists userID feedID), .call (.RemoveFeed userID feedID),
          .write (.ServerError (errors.New "Unable to remove this feed"))], r.2⟩
      | none =>
        ⟨[.call (.FeedExists userID feedID), .call (.RemoveFeed userID feedID),
          .write .NoContent], r.2⟩

/-- The six operations of the feed controller. -/
inductive Op where
  | CreateFeed
  | RefreshFeed
  | UpdateFeed
  | GetFeeds
  | GetFeed
  | RemoveFeed
deriving DecidableEq, Repr

/-- Run the handler of an operation. -/
def Op.run (op : Op) (c : Controller Feed σ) (pkg : Packages Feed)
    (ctx : Context) (request : Request) (w : σ) : Run Feed σ :=
  match op with
  | .CreateFeed => c.CreateFeed pkg ctx request w
  | .RefreshFeed => c.RefreshFeed ctx request w
  | .UpdateFeed => c.UpdateFeed pkg ctx request w
  | .GetFeeds => c.GetFeeds ctx request w
  | .GetFeed => c.GetFeed ctx request w
  | .RemoveFeed => c.RemoveFeed ctx request w

end Handlers

/-! ## Observations on a run -/

section Observations

variable {Feed σ : Type}

/-- The collaborator call of an event, if it is one. -/
def Event.call? : Event Feed → Option (Call Feed)
  | .call c => some c
  | .write _ => none

/-- The response write of an event, if it is one. -/
def Event.write? : Event Feed → Option (Response Feed)
  | .call _ => none
  | .write r => some r

/-- The collaborator calls of a run, in order. -/
def Run.calls (r : Run Feed σ) : List (Call Feed) := r.events.filterMap Event.call?

/-- The response writes of a run, in order. -/
def Run.responses (r : Run Feed σ) : List (Response Feed) := r.events.filterMap Event.write?

/-- The store calls that change stored feeds: UpdateFeed and RemoveFeed. -/
def Call.isMutatingStore : Call Feed → Bool
  | .UpdateFeed _ => true
  | .RemoveFeed _ _ => true
  | _ => false

/-- The user ID argument of a call, for the calls that take one. -/
def Call.userID? : Call Feed → Option Int
  | .CreateFeed userID _ _ => some userID
  | .RefreshFeed userID _ => some userID
  | .GetFeedById userID _ => some userID
  | .GetFeeds userID => some userID
  | .UpdateFeed _ => none
  | .FeedExists userID _ => some userID
  | .RemoveFeed userID _ => some userID

/-- The feed ID argument of a call, for the calls that take one. -/
def Call.feedID? : Call Feed → Option Int
  | .RefreshFeed _ feedID => some feedID
  | .GetFeedById _ feedID => some feedID
  | .FeedExists _ feedID => some feedID
  | .RemoveFeed _ feedID => some feedID
  | _ => none

end Observations

/-! ## Predicates used to state the properties -/

section Predicates

variable {Feed σ : Type}

/-- Whether a parameter decode of the operation returns an error on this
request: the JSON body for CreateFeed, the feedID path parameter for
RefreshFeed, GetFeed and RemoveFeed, either of the two for UpdateFeed.
GetFeeds decodes nothing. -/
def Op.decodeFails (op : Op) (pkg : Packages Feed) (request : Request) : Bool :=
  match op with
  | .CreateFeed => (pkg.DecodeFeedCreationPayload request.GetBody).2.2.isSome
  | .RefreshFeed => (request.GetIntegerParam "feedID").2.isSome
  | .UpdateFeed =>
    (request.GetIntegerParam "feedID").2.isSome ||
      (pkg.DecodeFeedModificationPayload request.GetBody).2.isSome
  | .GetFeeds => false
  | .GetFeed => (request.GetIntegerParam "feedID").2.isSome
  | .RemoveFeed => (request.GetIntegerParam "feedID").2.isSome

/-- The fixed message the specification lists for each operation. -/
def Op.fixedLiteral : Op → String
  | .CreateFeed => "Unable to create this feed"
  | .RefreshFeed => "Unable to refresh this feed"
  | .UpdateFeed => "Unable to update this feed"
  | .GetFeeds => "Unable to fetch feeds from the database"
  | .GetFeed => "Unable to fetch this feed"
  | .RemoveFeed => "Unable to remove this feed"

/-- Two error results fail together: both are nil or both are non-nil. -/
def sameFailure (a b : Option GoError) : Prop := a.isSome = b.isSome

/-- Two controllers whose collaborators behave alike on every call (same
returned values, same next state, failure on the same calls) and may differ
only in the error values they return. -/
structure AgreeUpToErrors (c₁ c₂ : Controller Feed σ) : Prop where
  createFeed : ∀ u cat url w,
    (c₁.feedHandler.CreateFeed u cat url w).1.1 = (c₂.feedHandler.CreateFeed u cat url w).1.1 ∧
    sameFailure (c₁.feedHandler.CreateFeed u cat url w).1.2
      (c₂.feedHandler.CreateFeed u cat url w).1.2 ∧
    (c₁.feedHandler.CreateFeed u cat url w).2 = (c₂.feedHandler.CreateFeed u cat url w).2
  refreshFeed : ∀ u i w,
    sameFailure (c₁.feedHandler.RefreshFeed u i w).1 (c₂.feedHandler.RefreshFeed u i w).1 ∧
    (c₁.feedHandler.RefreshFeed u i w).2 = (c₂.feedHandler.RefreshFeed u i w).2
  getFeedById : ∀ u i w,
    (c₁.store.GetFeedById u i w).1.1 = (c₂.store.GetFeedById u i w).1.1 ∧
    sameFailure (c₁.store.GetFeedById u i w).1.2 (c₂.store.GetFeedById u i w).1.2 ∧
    (c₁.store.GetFeedById u i w).2 = (c₂.store.GetFeedById u i w).2
  getFeeds : ∀ u w,
    (c₁.store.GetFeeds u w).1.1 = (c₂.store.GetFeeds u w).1.1 ∧
    sameFailure (c₁.store.GetFeeds u w).1.2 (c₂.store.GetFeeds u w).1.2 ∧
    (c₁.store.GetFeeds u w).2 = (c₂.store.GetFeeds u w).2
  updateFeed : ∀ f w,
    sameFailure (c₁.store.UpdateFeed f w).1 (c₂.store.UpdateFeed f w).1 ∧
    (c₁.store.UpdateFeed f w).2 = (c₂.store.UpdateFeed f w).2
  feedExists : ∀ u i w, c₁.store.FeedExists u i w = c₂.store.FeedExists u i w
  removeFeed : ∀ u i w,
    sameFailure (c₁.store.RemoveFeed u i w).1 (c₂.store.RemoveFeed u i w).1 ∧
    (c₁.store.RemoveFeed u i w).2 = (c₂.store.RemoveFeed u i w).2

/-- The effect of a collaborator call on the collaborator state: the next
state returned by the method the call names, applied to the arguments the call
carries. -/
def Controller.effect (c : Controller Feed σ) : Call Feed → σ → σ
  | .CreateFeed userID categoryID feedURL, w =>
    (c.feedHandler.CreateFeed userID categoryID feedURL w).2
  | .RefreshFeed userID feedID, w => (c.feedHandler.RefreshFeed userID feedID w).2
  | .GetFeedById userID feedID, w => (c.store.GetFeedById userID feedID w).2
  | .GetFeeds userID, w => (c.store.GetFeeds userID w).2
  | .UpdateFeed feed, w => (c.store.UpdateFeed feed w).2
  | .FeedExists userID feedID, w => (c.store.FeedExists userID feedID w).2
  | .RemoveFeed userID feedID, w => (c.store.RemoveFeed userID feedID w).2

/-- The collaborator state reached by performing a sequence of calls in order. -/
def Controller.replay (c : Controller Feed σ) (ks : List (Call Feed)) (w : σ) : σ :=
  ks.foldl (fun s k => c.effect k s) w

/-- Two controllers answer a call alike in a state: the methods the call names
return the same result and the same next state on the call's arguments. -/
def Controller.sameAnswer (c₁ c₂ : Controller Feed σ) : Call Feed → σ → Prop
  | .CreateFeed userID categoryID feedURL, w =>
    c₁.feedHandler.CreateFeed userID categoryID feedURL w =
      c₂.feedHandler.CreateFeed userID categoryID feedURL w
  | .RefreshFeed userID feedID, w =>
    c₁.feedHandler.RefreshFeed userID feedID w = c₂.feedHandler.RefreshFeed userID feedID w
  | .GetFeedById userID feedID, w =>
    c₁.store.GetFeedById userID feedID w = c₂.store.GetFeedById userID feedID w
  | .GetFeeds userID, w => c₁.store.GetFeeds userID w = c₂.store.GetFeeds userID w
  | .UpdateFeed feed, w => c₁.store.UpdateFeed feed w = c₂.store.UpdateFeed feed w
  | .FeedExists userID feedID, w =>
    c₁.store.FeedExists userID feedID w = c₂.store.FeedExists userID feedID w
  | .RemoveFeed userID feedID, w =>
    c₁.store.RemoveFeed userID feedID w = c₂.store.RemoveFeed userID feedID w

/-- Two controllers answer alike along a sequence of calls performed in order
from a state; elsewhere they may differ in any way. -/
def Controller.agreeAlong (c₁ c₂ : Controller Feed σ) : List (Call Feed) → σ → Prop
  | [], _ => True
  | k :: ks, w => c₁.sameAnswer c₂ k w ∧ c₁.agreeAlong c₂ ks (c₁.effect k w)

end Predicates

/-! ## Concrete collaborators used to exercise the handlers

Feeds are strings here and the collaborator state is the number of calls the
collaborators have received. -/

section Doubles

/-- A request whose only path parameter is feedID, with the given value
(`none` when the path segment is not an integer), and with the given body. -/
def testRequest (feedID : Option Int) (body : String) : Request where
  GetIntegerParam := fun name =>
    if name = "feedID" then
      match feedID with
      | some i => (i, none)
      | none => (0, some ⟨"not an integer"⟩)
    else (0, some ⟨"no such parameter"⟩)
  GetBody := body

/-- Decoders that reject the empty body, and a Merge that appends the payload. -/
def testPackages : Packages String where
  DecodeFeedCreationPayload := fun body =>
    if body = "" then ("", 0, some ⟨"unexpected end of JSON input"⟩) else (body, 1, none)
  DecodeFeedModificationPayload := fun body =>
    if body = "" then (none, some ⟨"unexpected end of JSON input"⟩) else (some body, none)
  Merge := fun f p => f ++ p.getD ""

/-- Collaborators that always succeed; user 7 owns the single feed 42. -/
def workingController : Controller String Nat where
  feedHandler :=
    { CreateFeed := fun _ _ url n => ((some url, none), n + 1)
      RefreshFeed := fun _ _ n => (none, n + 1) }
  store :=
    { GetFeedById := fun u i n =>
        if u = 7 ∧ i = 42 then ((some "http://a", none), n + 1) else ((none, none), n + 1)
      GetFeeds := fun u n => ((if u = 7 then ["http://a"] else [], none), n + 1)
      UpdateFeed := fun _ n => (none, n + 1)
      FeedExists := fun u i n => (decide (u = 7 ∧ i = 42), n + 1)
      RemoveFeed := fun _ _ n => (none, n + 1) }

/-- Collaborators whose every fallible call fails with the error `e`. -/
def failingController (e : GoError) : Controller String Nat where
  feedHandler :=
    { CreateFeed := fun _ _ _ n => ((none, some e), n + 1)
      RefreshFeed := fun _ _ n => (some e, n + 1) }
  store :=
    { GetFeedById := fun _ _ n => ((none, some e), n + 1)
      GetFeeds := fun _ n => (([], some e), n + 1)
      UpdateFeed := fun _ n => (some e, n + 1)
      FeedExists := fun _ _ n => (true, n + 1)
      RemoveFeed := fun _ _ n => (some e, n + 1) }

/-- Collaborators that serve user 7 like `workingController` and fail every
fallible call made for any other user. -/
def singleTenantController : Controller String Nat where
  feedHandler :=
    { CreateFeed := fun u cat url n =>
        if u = 7 then workingController.feedHandler.CreateFeed u cat url n
        else ((none, some ⟨"unknown tenant"⟩), n + 5)
      RefreshFeed := fun u i n =>
        if u = 7 then workingController.feedHandler.RefreshFeed u i n
        else (some ⟨"unknown tenant"⟩, n + 5) }
  store :=
    { GetFeedById := fun u i n =>
        if u = 7 then workingController.store.GetFeedById u i n
        else ((none, some ⟨"unknown tenant"⟩), n + 5)
      GetFeeds := fun u n =>
        if u = 7 then workingController.store.GetFeeds u n
        else (([], some ⟨"unknown tenant"⟩), n + 5)
      UpdateFeed := fun f n => workingController.store.UpdateFeed f n
      FeedExists := fun u i n =>
        if u = 7 then workingController.store.FeedExists u i n else (true, n + 5)
      RemoveFeed := fun u i n =>
        if u = 7 ∧ i = 42 then workingController.store.RemoveFeed u i n
        else (some ⟨"unknown tenant"⟩, n + 5) }

end Doubles

/-! ## Properties -/

section Properties

variable {Feed σ : Type}

/-! ### The run consults the collaborators through the recorded calls only -/

/-- A run consults the collaborators through the recorded calls only: other
collaborators that answer those calls alike, in the states in which they are
made, produce the same run, however they behave on other arguments. -/
theorem run_determined_by_calls (op : Op) (c c₂ : Controller Feed σ) (pkg : Packages Feed)
    (ctx : Context) (request : Request) (w : σ)
    (h : c.agreeAlong c₂ (op.run c pkg ctx request w).calls w) :
    op.run c₂ pkg ctx request w = op.run c pkg ctx request w := by
  cases op
  · simp only [Op.run, Controller.CreateFeed] at h ⊢
    (repeat' split) <;>
      simp_all [Run.calls, Event.call?, Controller.agreeAlong, Controller.sameAnswer,
        Controller.effect]
  · simp only [Op.run, Controller.RefreshFeed] at h ⊢
    (repeat' split) <;>
      simp_all [Run.calls, Event.call?, Controller.agreeAlong, Controller.sameAnswer,
        Controller.effect]
  · simp only [Op.run, Controller.UpdateFeed] at h ⊢
    cases hp : (request.GetIntegerParam "feedID").2 with
    | some e => rfl
    | none =>
      cases hd : (pkg.DecodeFeedModificationPayload request.GetBody).2 with
      | some e => rfl
      | none =>
        simp only [hp, hd] at h
        dsimp only at h ⊢
        have hg : c.store.GetFeedById ctx.GetUserID (request.GetIntegerParam "feedID").1 w =
            c₂.store.GetFeedById ctx.GetUserID (request.GetIntegerParam "feedID").1 w := by
          revert h
          (repeat' split) <;> exact fun h => h.1
        rw [← hg]
        cases he : (c.store.GetFeedById ctx.GetUserID
            (request.GetIntegerParam "feedID").1 w).1.2 with
        | some e => rfl
        | none =>
          cases hf : (c.store.GetFeedById ctx.GetUserID
              (request.GetIntegerParam "feedID").1 w).1.1 with
          | none => rfl
          | some f =>
            simp only [he, hf] at h
            dsimp only at h ⊢
            have hu : c.store.UpdateFeed
                (pkg.Merge f (pkg.DecodeFeedModificationPayload request.GetBody).1)
                (c.store.GetFeedById ctx.GetUserID (request.GetIntegerParam "feedID").1 w).2 =
              c₂.store.UpdateFeed
                (pkg.Merge f (pkg.DecodeFeedModificationPayload request.GetBody).1)
                (c.store.GetFeedById ctx.GetUserID (request.GetIntegerParam "feedID").1 w).2 := by
              revert h
              split <;> exact fun h => h.2.1
            rw [← hu]
  · simp only [Op.run, Controller.GetFeeds] at h ⊢
    (repeat' split) <;>
      simp_all [Run.calls, Event.call?, Controller.agreeAlong, Controller.sameAnswer,
        Controller.effect]
  · simp only [Op.run, Controller.GetFeed] at h ⊢
    (repeat' split) <;>
      simp_all [Run.calls, Event.call?, Controller.agreeAlong, Controller.sameAnswer,
        Controller.effect]
  · simp only [Op.run, Controller.RemoveFeed] at h ⊢
    cases hp : (request.GetIntegerParam "feedID").2 with
    | some e => rfl
    | none =>
      simp only [hp] at h
      dsimp only at h ⊢
      have hx : c.store.FeedExists ctx.GetUserID (request.GetIntegerParam "feedID").1 w =
          c₂.store.FeedExists ctx.GetUserID (request.GetIntegerParam "feedID").1 w := by
        revert h
        (repeat' split) <;> exact fun h => h.1
      rw [← hx]
      cases hb : (c.store.FeedExists ctx.GetUserID (request.GetIntegerParam "feedID").1 w).1 with
      | false => rfl
      | true =>
        simp only [hb, Bool.not_true, Bool.false_eq_true, if_false] at h
        have hr : c.store.RemoveFeed ctx.GetUserID (request.GetIntegerParam "feedID").1
              (c.store.FeedExists ctx.GetUserID (request.GetIntegerParam "feedID").1 w).2 =
            c₂.store.RemoveFeed ctx.GetUserID (request.GetIntegerParam "feedID").1
              (c.store.FeedExists ctx.GetUserID (request.GetIntegerParam "feedID").1 w).2 := by
          revert h
          (repeat' split) <;> exact fun h => h.2.1
        rw [← hr]

/-! ### The claims -/

/-- C1: whenever a parameter decode of an operation returns an error, the
handler writes a single 400 Bad Request response and calls no collaborator:
the run has no call event and the collaborator state is untouched. -/
theorem C1_decode_failure_bad_request_no_calls (op : Op) (c : Controller Feed σ)
    (pkg : Packages Feed) (ctx : Context) (request : Request) (w : σ)
    (h : op.decodeFails pkg request = true) :
    (∃ err, (op.run c pkg ctx request w).events = [.write (.BadRequest err)]) ∧
    (op.run c pkg ctx request w).responses.map Response.status = [400] ∧
    (op.run c pkg ctx request w).calls.length = 0 ∧
    (op.run c pkg ctx request w).world = w := by
  cases op <;>
    simp only [Op.run, Controller.CreateFeed, Controller.RefreshFeed, Controller.UpdateFeed,
      Controller.GetFeeds, Controller.GetFeed, Controller.RemoveFeed, Op.decodeFails] at h ⊢ <;>
    (repeat' split) <;>
    simp_all [Run.responses, Run.calls, Event.write?, Event.call?, Response.status]

/-- Witness of C1: a non-integer feedID on UpdateFeed, with collaborators that
would have failed. -/
theorem C1_witness :
    Op.decodeFails Op.UpdateFeed testPackages (testRequest none "x") = true ∧
    (Op.UpdateFeed.run (failingController ⟨"db down"⟩) testPackages ⟨7⟩
      (testRequest none "x") 0).responses.map Response.status = [400] ∧
    (Op.UpdateFeed.run (failingController ⟨"db down"⟩) testPackages ⟨7⟩
      (testRequest none "x") 0).calls.length = 0 ∧
    (Op.UpdateFeed.run (failingController ⟨"db down"⟩) testPackages ⟨7⟩
      (testRequest none "x") 0).world = 0 :=
  ⟨by decide,
    (C1_decode_failure_bad_request_no_calls Op.UpdateFeed (failingController ⟨"db down"⟩)
      testPackages ⟨7⟩ (testRequest none "x") 0 (by decide)).2⟩

/-- C2: with well-formed parameters, when the store reports no such feed for
the user (GetFeedById returns a nil feed and a nil error; FeedExists returns
false), GetFeed, UpdateFeed and RemoveFeed each respond 404 Not Found. -/
theorem C2_absent_feed_not_found (c : Controller Feed σ) (pkg : Packages Feed)
    (ctx : Context) (request : Request) (w : σ)
    (hid : (request.GetIntegerParam "feedID").2 = none) :
    ((c.store.GetFeedById ctx.GetUserID (request.GetIntegerParam "feedID").1 w).1 = (none, none) →
      (c.GetFeed ctx request w).responses.map Response.status = [404] ∧
      ((pkg.DecodeFeedModificationPayload request.GetBody).2 = none →
        (c.UpdateFeed pkg ctx request w).responses.map Response.status = [404])) ∧
    ((c.store.FeedExists ctx.GetUserID (request.GetIntegerParam "feedID").1 w).1 = false →
      (c.RemoveFeed ctx request w).responses.map Response.status = [404]) := by
  refine ⟨fun hget => ⟨?_, fun hbody => ?_⟩, fun hex => ?_⟩
  · have h1 := congrArg Prod.fst hget
    have h2 := congrArg Prod.snd hget
    simp only [Controller.GetFeed]
    (repeat' split) <;> simp_all [Run.responses, Event.write?, Response.status]
  · have h1 := congrArg Prod.fst hget
    have h2 := congrArg Prod.snd hget
    simp only [Controller.UpdateFeed]
    (repeat' split) <;> simp_all [Run.responses, Event.write?, Response.status]
  · simp only [Controller.RemoveFeed]
    (repeat' split) <;> simp_all [Run.responses, Event.write?, Response.status]

/-- Witness of C2: user 8 asks for feed 42, which the store holds for user 7 only. -/
theorem C2_witness :
    ((testRequest (some 42) "x").GetIntegerParam "feedID").2 = none ∧
    (workingController.store.GetFeedById 8 42 0).1 = (none, none) ∧
    (testPackages.DecodeFeedModificationPayload "x").2 = none ∧
    (workingController.store.FeedExists 8 42 0).1 = false ∧
    (workingController.GetFeed ⟨8⟩ (testRequest (some 42) "x") 0).responses.map
      Response.status = [404] ∧
    (workingController.UpdateFeed testPackages ⟨8⟩ (testRequest (some 42) "x") 0).responses.map
      Response.status = [404] ∧
    (workingController.RemoveFeed ⟨8⟩ (testRequest (some 42) "x") 0).responses.map
      Response.status = [404] :=
  have h := C2_absent_feed_not_found workingController testPackages ⟨8⟩
    (testRequest (some 42) "x") 0 (by decide)
  ⟨by decide, by decide, by decide, by decide, (h.1 (by decide)).1,
    (h.1 (by decide)).2 (by decide), h.2 (by decide)⟩

/-- C3 (failing input): UpdateFeed with well-formed parameters and a store
whose GetFeedById returns a non-nil error answers 404 Not Found with the text
"Unable to find this feed", not a 500 server error; GetFeed on the same store
answers 500. -/
theorem C3_updateFeed_lookup_error_answers_404 :
    ((testRequest (some 42) "x").GetIntegerParam "feedID").2 = none ∧
    (testPackages.DecodeFeedModificationPayload "x").2 = none ∧
    ((failingController ⟨"connection refused"⟩).store.GetFeedById 7 42 0).1 =
      (none, some ⟨"connection refused"⟩) ∧
    ((failingController ⟨"connection refused"⟩).UpdateFeed testPackages ⟨7⟩
      (testRequest (some 42) "x") 0).events =
      [.call (.GetFeedById 7 42), .write (.NotFound ⟨"Unable to find this feed"⟩)] ∧
    ((failingController ⟨"connection refused"⟩).UpdateFeed testPackages ⟨7⟩
      (testRequest (some 42) "x") 0).responses.map Response.status = [404] ∧
    ((failingController ⟨"connection refused"⟩).GetFeed ⟨7⟩
      (testRequest (some 42) "x") 0).responses.map Response.status = [500] := by
  decide

/-- Two runs of an operation on the same request whose collaborators differ
only in the error values they return perform the same events (hence write the
same response) and leave the same collaborator state. -/
theorem error_value_never_reaches_response (op : Op) (c₁ c₂ : Controller Feed σ)
    (pkg : Packages Feed) (ctx : Context) (request : Request) (w : σ)
    (h : AgreeUpToErrors c₁ c₂) :
    op.run c₁ pkg ctx request w = op.run c₂ pkg ctx request w := by
  cases op
  · have a := h.createFeed ctx.GetUserID
      (pkg.DecodeFeedCreationPayload request.GetBody).2.1
      (pkg.DecodeFeedCreationPayload request.GetBody).1 w
    simp only [sameFailure] at a
    simp only [Op.run, Controller.CreateFeed]
    (repeat' split) <;> simp_all
  · have a := h.refreshFeed ctx.GetUserID (request.GetIntegerParam "feedID").1 w
    simp only [sameFailure] at a
    simp only [Op.run, Controller.RefreshFeed]
    (repeat' split) <;> simp_all
  · obtain ⟨a1, a2, a3⟩ :=
      h.getFeedById ctx.GetUserID (request.GetIntegerParam "feedID").1 w
    simp only [Op.run, Controller.UpdateFeed]
    generalize c₁.store.GetFeedById ctx.GetUserID (request.GetIntegerParam "feedID").1 w = g₁
      at a1 a2 a3 ⊢
    generalize c₂.store.GetFeedById ctx.GetUserID (request.GetIntegerParam "feedID").1 w = g₂
      at a1 a2 a3 ⊢
    obtain ⟨⟨f₁, e₁⟩, w₁⟩ := g₁
    obtain ⟨⟨f₂, e₂⟩, w₂⟩ := g₂
    simp only [sameFailure] at a1 a2 a3
    subst a1 a3
    cases (request.GetIntegerParam "feedID").2 with
    | some e => rfl
    | none =>
      cases (pkg.DecodeFeedModificationPayload request.GetBody).2 with
      | some e => rfl
      | none =>
        cases e₁ <;> cases e₂ <;> simp at a2 ⊢
        cases f₁ with
        | none => rfl
        | some f =>
          dsimp only
          obtain ⟨b1, b2⟩ :=
            h.updateFeed (pkg.Merge f (pkg.DecodeFeedModificationPayload request.GetBody).1) w₁
          simp only [sameFailure] at b1
          rw [← b2]
          cases h3 : (c₁.store.UpdateFeed
              (pkg.Merge f (pkg.DecodeFeedModificationPayload request.GetBody).1) w₁).1 <;>
            cases h4 : (c₂.store.UpdateFeed
              (pkg.Merge f (pkg.DecodeFeedModificationPayload request.GetBody).1) w₁).1 <;>
            simp [h3, h4] at b1 ⊢
  · have a := h.getFeeds ctx.GetUserID w
    simp only [sameFailure] at a
    simp only [Op.run, Controller.GetFeeds]
    (repeat' split) <;> simp_all
  · have a := h.getFeedById ctx.GetUserID (request.GetIntegerParam "feedID").1 w
    simp only [sameFailure] at a
    simp only [Op.run, Controller.GetFeed]
    rw [← a.2.2, ← a.1]
    (repeat' split) <;> simp_all
  · have a := h.feedExists ctx.GetUserID (request.GetIntegerParam "feedID").1 w
    have b := h.removeFeed ctx.GetUserID (request.GetIntegerParam "feedID").1
      (c₁.store.FeedExists ctx.GetUserID (request.GetIntegerParam "feedID").1 w).2
    simp only [sameFailure] at b
    simp only [Op.run, Controller.RemoveFeed]
    rw [← a, ← b.2]
    (repeat' split) <;> simp_all

/-- Apart from a failing store.GetFeedById inside UpdateFeed, a collaborator
call that returns a non-nil error, after the parameters decoded, makes the
handler write a 500 server error whose text is the fixed literal of the
operation. -/
theorem collaborator_failure_writes_fixed_literal (c : Controller Feed σ)
    (pkg : Packages Feed) (ctx : Context) (request : Request) (w : σ) :
    ((pkg.DecodeFeedCreationPayload request.GetBody).2.2 = none →
      (c.feedHandler.CreateFeed ctx.GetUserID (pkg.DecodeFeedCreationPayload request.GetBody).2.1
        (pkg.DecodeFeedCreationPayload request.GetBody).1 w).1.2 ≠ none →
      (c.CreateFeed pkg ctx request w).responses =
        [.ServerError ⟨Op.CreateFeed.fixedLiteral⟩]) ∧
    ((request.GetIntegerParam "feedID").2 = none →
      (c.feedHandler.RefreshFeed ctx.GetUserID (request.GetIntegerParam "feedID").1 w).1 ≠ none →
      (c.RefreshFeed ctx request w).responses =
        [.ServerError ⟨Op.RefreshFeed.fixedLiteral⟩]) ∧
    ((request.GetIntegerParam "feedID").2 = none →
      (pkg.DecodeFeedModificationPayload request.GetBody).2 = none →
      ∀ f, (c.store.GetFeedById ctx.GetUserID (request.GetIntegerParam "feedID").1 w).1 =
          (some f, none) →
        (c.store.UpdateFeed (pkg.Merge f (pkg.DecodeFeedModificationPayload request.GetBody).1)
          (c.store.GetFeedById ctx.GetUserID (request.GetIntegerParam "feedID").1 w).2).1 ≠ none →
        (c.UpdateFeed pkg ctx request w).responses =
          [.ServerError ⟨Op.UpdateFeed.fixedLiteral⟩]) ∧
    ((c.store.GetFeeds ctx.GetUserID w).1.2 ≠ none →
      (c.GetFeeds ctx request w).responses = [.ServerError ⟨Op.GetFeeds.fixedLiteral⟩]) ∧
    ((request.GetIntegerParam "feedID").2 = none →
      (c.store.GetFeedById ctx.GetUserID (request.GetIntegerParam "feedID").1 w).1.2 ≠ none →
      (c.GetFeed ctx request w).responses = [.ServerError ⟨Op.GetFeed.fixedLiteral⟩]) ∧
    ((request.GetIntegerParam "feedID").2 = none →
      (c.store.FeedExists ctx.GetUserID (request.GetIntegerParam "feedID").1 w).1 = true →
      (c.store.RemoveFeed ctx.GetUserID (request.GetIntegerParam "feedID").1
        (c.store.FeedExists ctx.GetUserID (request.GetIntegerParam "feedID").1 w).2).1 ≠ none →
      (c.RemoveFeed ctx request w).responses =
        [.ServerError ⟨Op.RemoveFeed.fixedLiteral⟩]) := by
  refine ⟨?_, ?_, ?_, ?_, ?_, ?_⟩
  · intro hd hc
    simp only [Controller.CreateFeed]
    (repeat' split) <;>
      simp_all [Run.responses, Event.write?, Op.fixedLiteral, errors.New]
  · intro hid hr
    simp only [Controller.RefreshFeed]
    (repeat' split) <;>
      simp_all [Run.responses, Event.write?, Op.fixedLiteral, errors.New]
  · intro hid hd f hget hu
    have h1 := congrArg Prod.fst hget
    have h2 := congrArg Prod.snd hget
    simp only at h1 h2
    simp only [Controller.UpdateFeed, hid, hd, h1, h2]
    split <;> simp_all [Run.responses, Event.write?, Op.fixedLiteral, errors.New]
  · intro hg
    simp only [Controller.GetFeeds]
    (repeat' split) <;>
      simp_all [Run.responses, Event.write?, Op.fixedLiteral, errors.New]
  · intro hid hg
    simp only [Controller.GetFeed]
    (repeat' split) <;>
      simp_all [Run.responses, Event.write?, Op.fixedLiteral, errors.New]
  · intro hid hx hr
    simp only [Controller.RemoveFeed]
    (repeat' split) <;>
      simp_all [Run.responses, Event.write?, Op.fixedLiteral, errors.New]

/-- C5: when the feedID and the body decode to a payload `p` and
store.GetFeedById returns the existing feed `f`, UpdateFeed applies
store.UpdateFeed to `Merge f p` in the state left by the lookup: the calls made
are the lookup and that update, and the final collaborator state is the one
store.UpdateFeed returns on `Merge f p`. When that call succeeds the response
is 201 Created with that same merged value as body; when it fails the response
is the 500 of the operation. The raw payload is neither persisted nor
returned: wherever the merged value differs from `p`, no UpdateFeed call and
no response body carries `p`. The run consults the store through these two
calls only. -/
theorem C5_update_persists_and_returns_merged (c : Controller Feed σ) (pkg : Packages Feed)
    (ctx : Context) (request : Request) (w : σ) (f : Feed) (p : Option Feed)
    (hid : (request.GetIntegerParam "feedID").2 = none)
    (hbody : pkg.DecodeFeedModificationPayload request.GetBody = (p, none))
    (hget : (c.store.GetFeedById ctx.GetUserID (request.GetIntegerParam "feedID").1 w).1 =
      (some f, none)) :
    (c.UpdateFeed pkg ctx request w).calls =
      [.GetFeedById ctx.GetUserID (request.GetIntegerParam "feedID").1,
       .UpdateFeed (pkg.Merge f p)] ∧
    (c.UpdateFeed pkg ctx request w).world =
      (c.store.UpdateFeed (pkg.Merge f p)
        (c.store.GetFeedById ctx.GetUserID (request.GetIntegerParam "feedID").1 w).2).2 ∧
    ((c.store.UpdateFeed (pkg.Merge f p)
        (c.store.GetFeedById ctx.GetUserID (request.GetIntegerParam "feedID").1 w).2).1 = none →
      (c.UpdateFeed pkg ctx request w).responses.map (fun r => (r.status, r.body)) =
        [(201, some (.feed (some (pkg.Merge f p))))]) ∧
    ((c.store.UpdateFeed (pkg.Merge f p)
        (c.store.GetFeedById ctx.GetUserID (request.GetIntegerParam "feedID").1 w).2).1 ≠ none →
      (c.UpdateFeed pkg ctx request w).responses =
        [.ServerError (errors.New "Unable to update this feed")]) ∧
    (some (pkg.Merge f p) ≠ p →
      (∀ q, Call.UpdateFeed q ∈ (c.UpdateFeed pkg ctx request w).calls → some q ≠ p) ∧
      (∀ r ∈ (c.UpdateFeed pkg ctx request w).responses, r.body ≠ some (.feed p))) ∧
    (∀ c₂ : Controller Feed σ,
      c.agreeAlong c₂ (c.UpdateFeed pkg ctx request w).calls w →
      c₂.UpdateFeed pkg ctx request w = c.UpdateFeed pkg ctx request w) := by
  have h1 := congrArg Prod.fst hget
  have h2 := congrArg Prod.snd hget
  have d1 := congrArg Prod.fst hbody
  have d2 := congrArg Prod.snd hbody
  simp only at h1 h2 d1 d2
  refine ⟨?_, ?_, ?_, ?_, ?_, ?_⟩
  · simp only [Controller.UpdateFeed, hid, d1, d2, h1, h2]
    split <;> simp [Run.calls, Event.call?]
  · simp only [Controller.UpdateFeed, hid, d1, d2, h1, h2]
    split <;> rfl
  · intro hu
    simp [Controller.UpdateFeed, hid, d1, d2, h1, h2, hu, Run.responses, Event.write?,
      Response.status, Response.body]
  · intro hu
    simp only [Controller.UpdateFeed, hid, d1, d2, h1, h2]
    split <;> simp_all [Run.responses, Event.write?]
  · intro hne
    simp only [Controller.UpdateFeed, hid, d1, d2, h1, h2]
    split <;>
      simp [Run.calls, Run.responses, Event.call?, Event.write?, Response.body] <;>
      exact hne
  · intro c₂ h
    exact run_determined_by_calls Op.UpdateFeed c c₂ pkg ctx request w h

/-- Witness of C5: user 7 updates feed 42 ("http://a") with payload "/rss";
the store receives two calls, the second one with the merged feed. -/
theorem C5_witness :
    ((testRequest (some 42) "/rss").GetIntegerParam "feedID").2 = none ∧
    testPackages.DecodeFeedModificationPayload "/rss" = (some "/rss", none) ∧
    (workingController.store.GetFeedById 7 42 0).1 = (some "http://a", none) ∧
    (workingController.UpdateFeed testPackages ⟨7⟩ (testRequest (some 42) "/rss") 0).calls =
      [.GetFeedById 7 42, .UpdateFeed "http://a/rss"] ∧
    (workingController.UpdateFeed testPackages ⟨7⟩ (testRequest (some 42) "/rss") 0).world = 2 ∧
    (workingController.UpdateFeed testPackages ⟨7⟩
      (testRequest (some 42) "/rss") 0).responses.map (fun r => (r.status, r.body)) =
      [(201, some (.feed (some "http://a/rss")))] ∧
    singleTenantController.UpdateFeed testPackages ⟨7⟩ (testRequest (some 42) "/rss") 0 =
      workingController.UpdateFeed testPackages ⟨7⟩ (testRequest (some 42) "/rss") 0 :=
  have h := C5_update_persists_and_returns_merged workingController testPackages ⟨7⟩
    (testRequest (some 42) "/rss") 0 "http://a" (some "/rss")
    (by decide) (by decide) (by decide)
  ⟨by decide, by decide, by decide, h.1, h.2.1, h.2.2.1 (by decide),
    h.2.2.2.2.2 singleTenantController ⟨rfl, rfl, trivial⟩⟩

/-- C6: when the parameters decode and every collaborator call succeeds (and
the feed exists, for UpdateFeed, GetFeed and RemoveFeed), the response is the
success entry of the operation: CreateFeed 201 with the feed returned by
feedHandler.CreateFeed; RefreshFeed 204 without body; UpdateFeed 201 with the
merged feed; GetFeeds 200 with exactly the list returned by store.GetFeeds;
GetFeed 200 with exactly the feed returned by store.GetFeedById; RemoveFeed
204 without body. -/
theorem C6_success_responses (c : Controller Feed σ) (pkg : Packages Feed)
    (ctx : Context) (request : Request) (w : σ) :
    ((pkg.DecodeFeedCreationPayload request.GetBody).2.2 = none →
      (c.feedHandler.CreateFeed ctx.GetUserID (pkg.DecodeFeedCreationPayload request.GetBody).2.1
        (pkg.DecodeFeedCreationPayload request.GetBody).1 w).1.2 = none →
      (c.CreateFeed pkg ctx request w).responses.map (fun r => (r.status, r.body)) =
        [(201, some (.feed (c.feedHandler.CreateFeed ctx.GetUserID
          (pkg.DecodeFeedCreationPayload request.GetBody).2.1
          (pkg.DecodeFeedCreationPayload request.GetBody).1 w).1.1))]) ∧
    ((request.GetIntegerParam "feedID").2 = none →
      (c.feedHandler.RefreshFeed ctx.GetUserID (request.GetIntegerParam "feedID").1 w).1 = none →
      (c.RefreshFeed ctx request w).responses.map (fun r => (r.status, r.body)) =
        [(204, none)]) ∧
    ((request.GetIntegerParam "feedID").2 = none →
      (pkg.DecodeFeedModificationPayload request.GetBody).2 = none →
      ∀ f, (c.store.GetFeedById ctx.GetUserID (request.GetIntegerParam "feedID").1 w).1 =
          (some f, none) →
        (c.store.UpdateFeed (pkg.Merge f (pkg.DecodeFeedModificationPayload request.GetBody).1)
          (c.store.GetFeedById ctx.GetUserID (request.GetIntegerParam "feedID").1 w).2).1 = none →
        (c.UpdateFeed pkg ctx request w).responses.map (fun r => (r.status, r.body)) =
          [(201, some (.feed (some
            (pkg.Merge f (pkg.DecodeFeedModificationPayload request.GetBody).1))))]) ∧
    ((c.store.GetFeeds ctx.GetUserID w).1.2 = none →
      (c.GetFeeds ctx request w).responses.map (fun r => (r.status, r.body)) =
        [(200, some (.feeds (c.store.GetFeeds ctx.GetUserID w).1.1))]) ∧
    ((request.GetIntegerParam "feedID").2 = none →
      ∀ f, (c.store.GetFeedById ctx.GetUserID (request.GetIntegerParam "feedID").1 w).1 =
          (some f, none) →
        (c.GetFeed ctx request w).responses.map (fun r => (r.status, r.body)) =
          [(200, some (.feed (some f)))]) ∧
    ((request.GetIntegerParam "feedID").2 = none →
      (c.store.FeedExists ctx.GetUserID (request.GetIntegerParam "feedID").1 w).1 = true →
      (c.store.RemoveFeed ctx.GetUserID (request.GetIntegerParam "feedID").1
        (c.store.FeedExists ctx.GetUserID (request.GetIntegerParam "feedID").1 w).2).1 = none →
      (c.RemoveFeed ctx request w).responses.map (fun r => (r.status, r.body)) =
        [(204, none)]) := by
  refine ⟨?_, ?_, ?_, ?_, ?_, ?_⟩
  · intro hd hc
    simp [Controller.CreateFeed, hd, hc, Run.responses, Event.write?, Response.status,
      Response.body]
  · intro hid hr
    simp [Controller.RefreshFeed, hid, hr, Run.responses, Event.write?, Response.status,
      Response.body]
  · intro hid hd f hget hu
    have h1 := congrArg Prod.fst hget
    have h2 := congrArg Prod.snd hget
    simp only at h1 h2
    simp [Controller.UpdateFeed, hid, hd, h1, h2, hu, Run.responses, Event.write?,
      Response.status, Response.body]
  · intro hg
    simp [Controller.GetFeeds, hg, Run.responses, Event.write?, Response.status,
      Response.body]
  · intro hid f hget
    have h1 := congrArg Prod.fst hget
    have h2 := congrArg Prod.snd hget
    simp only at h1 h2
    simp [Controller.GetFeed, hid, h1, h2, Run.responses, Event.write?, Response.status,
      Response.body]
  · intro hid hx hr
    simp [Controller.RemoveFeed, hid, hx, hr, Run.responses, Event.write?, Response.status,
      Response.body]

/-- Witness of C6: the six operations against collaborators that succeed; user
7 owns feed 42, and user 8, who has no feed, lists an empty collection. -/
theorem C6_witness :
    (workingController.CreateFeed testPackages ⟨7⟩
      (testRequest none "http://b") 0).responses.map (fun r => (r.status, r.body)) =
      [(201, some (.feed (some "http://b")))] ∧
    (workingController.RefreshFeed ⟨7⟩
      (testRequest (some 42) "") 0).responses.map (fun r => (r.status, r.body)) =
      [(204, none)] ∧
    (workingController.UpdateFeed testPackages ⟨7⟩
      (testRequest (some 42) "/rss") 0).responses.map (fun r => (r.status, r.body)) =
      [(201, some (.feed (some "http://a/rss")))] ∧
    (workingController.GetFeeds ⟨8⟩
      (testRequest none "") 0).responses.map (fun r => (r.status, r.body)) =
      [(200, some (.feeds []))] ∧
    (workingController.GetFeed ⟨7⟩
      (testRequest (some 42) "") 0).responses.map (fun r => (r.status, r.body)) =
      [(200, some (.feed (some "http://a")))] ∧
    (workingController.RemoveFeed ⟨7⟩
      (testRequest (some 42) "") 0).responses.map (fun r => (r.status, r.body)) =
      [(204, none)] :=
  ⟨(C6_success_responses workingController testPackages ⟨7⟩
      (testRequest none "http://b") 0).1 (by decide) (by decide),
    (C6_success_responses workingController testPackages ⟨7⟩
      (testRequest (some 42) "") 0).2.1 (by decide) (by decide),
    (C6_success_responses workingController testPackages ⟨7⟩
      (testRequest (some 42) "/rss") 0).2.2.1 (by decide) (by decide) "http://a"
      (by decide) (by decide),
    (C6_success_responses workingController testPackages ⟨8⟩
      (testRequest none "") 0).2.2.2.1 (by decide),
    (C6_success_responses workingController testPackages ⟨7⟩
      (testRequest (some 42) "") 0).2.2.2.2.1 (by decide) "http://a" (by decide),
    (C6_success_responses workingController testPackages ⟨7⟩
      (testRequest (some 42) "") 0).2.2.2.2.2 (by decide) (by decide) (by decide)⟩

/-- C7: every operation performs exactly one response write, whatever the
decode results and the collaborator outcomes. -/
theorem C7_exactly_one_response_write (op : Op) (c : Controller Feed σ) (pkg : Packages Feed)
    (ctx : Context) (request : Request) (w : σ) :
    (op.run c pkg ctx request w).responses.length = 1 := by
  cases op <;>
    simp only [Op.run, Controller.CreateFeed, Controller.RefreshFeed, Controller.UpdateFeed,
      Controller.GetFeeds, Controller.GetFeed, Controller.RemoveFeed] <;>
    (repeat' split) <;> simp [Run.responses, Event.write?]

/-- C8 (counterexample): a successful RemoveFeed makes two collaborator calls,
store.FeedExists followed by store.RemoveFeed; the store, which counts the
calls it receives, ends at 2. -/
theorem C8_removeFeed_makes_two_calls :
    (Op.RemoveFeed.run workingController testPackages ⟨7⟩ (testRequest (some 42) "") 0).calls =
      [.FeedExists 7 42, .RemoveFeed 7 42] ∧
    (Op.RemoveFeed.run workingController testPackages ⟨7⟩ (testRequest (some 42) "") 0).world =
      2 ∧
    ¬ ((Op.RemoveFeed.run workingController testPackages ⟨7⟩
          (testRequest (some 42) "") 0).calls.length = 0 ∨
       (Op.RemoveFeed.run workingController testPackages ⟨7⟩
          (testRequest (some 42) "") 0).calls.length = 1) := by
  decide

/-- C8 (amended): CreateFeed, RefreshFeed, GetFeeds and GetFeed make zero or
one collaborator call; UpdateFeed and RemoveFeed make at most two, of which at
most one is a lookup (store.GetFeedById, store.FeedExists) and at most one is a
mutating store call (store.UpdateFeed, store.RemoveFeed). The calls counted are
the calls made: the final collaborator state is the one reached by performing
exactly these calls in order, and the run consults the collaborators through
these calls only. -/
theorem C8_collaborator_call_bounds (op : Op) (c : Controller Feed σ) (pkg : Packages Feed)
    (ctx : Context) (request : Request) (w : σ) :
    (op ≠ Op.UpdateFeed → op ≠ Op.RemoveFeed → (op.run c pkg ctx request w).calls.length ≤ 1) ∧
    (op.run c pkg ctx request w).calls.length ≤ 2 ∧
    ((op.run c pkg ctx request w).calls.filter (fun k => !k.isMutatingStore)).length ≤ 1 ∧
    ((op.run c pkg ctx request w).calls.filter Call.isMutatingStore).length ≤ 1 ∧
    (op.run c pkg ctx request w).world = c.replay (op.run c pkg ctx request w).calls w ∧
    (∀ c₂ : Controller Feed σ, c.agreeAlong c₂ (op.run c pkg ctx request w).calls w →
      op.run c₂ pkg ctx request w = op.run c pkg ctx request w) := by
  refine ⟨?_, ?_, ?_, ?_, ?_,
    fun c₂ h => run_determined_by_calls op c c₂ pkg ctx request w h⟩ <;>
  · cases op <;>
      simp only [Op.run, Controller.CreateFeed, Controller.RefreshFeed, Controller.UpdateFeed,
        Controller.GetFeeds, Controller.GetFeed, Controller.RemoveFeed] <;>
      (repeat' split) <;>
      simp [Run.calls, Event.call?, Call.isMutatingStore, Controller.replay, Controller.effect]

/-- Witness of C8: GetFeed for an existing feed makes exactly one call, and the
store that counts its calls ends at 1. -/
theorem C8_witness :
    Op.GetFeed ≠ Op.UpdateFeed ∧ Op.GetFeed ≠ Op.RemoveFeed ∧
    (Op.GetFeed.run workingController testPackages ⟨7⟩
      (testRequest (some 42) "") 0).calls.length ≤ 1 ∧
    (Op.GetFeed.run workingController testPackages ⟨7⟩ (testRequest (some 42) "") 0).world =
      workingController.replay [.GetFeedById 7 42] 0 ∧
    Op.GetFeed.run singleTenantController testPackages ⟨7⟩ (testRequest (some 42) "") 0 =
      Op.GetFeed.run workingController testPackages ⟨7⟩ (testRequest (some 42) "") 0 :=
  have h := C8_collaborator_call_bounds Op.GetFeed workingController testPackages ⟨7⟩
    (testRequest (some 42) "") 0
  ⟨by decide, by decide, h.1 (by decide) (by decide), h.2.2.2.2.1,
    h.2.2.2.2.2 singleTenantController ⟨rfl, trivial⟩⟩

/-- C9: in every operation, every collaborator call that takes a user ID is
passed the value of ctx.GetUserID(), and every collaborator call that takes a
feed ID is passed the value decoded from the feedID path parameter, for every
request body and every body decoder. These calls are the calls made: the final
collaborator state is the one reached by performing them with these arguments,
and the run is the same against any collaborators that answer alike on the
calls carrying this user ID and this feed ID, however they answer for other
user IDs and feed IDs. -/
theorem C9_identity_arguments_from_context_and_path (op : Op) (c : Controller Feed σ)
    (pkg : Packages Feed) (ctx : Context) (request : Request) (w : σ) :
    (∀ k ∈ (op.run c pkg ctx request w).calls,
      (∀ u, k.userID? = some u → u = ctx.GetUserID) ∧
      (∀ i, k.feedID? = some i → i = (request.GetIntegerParam "feedID").1)) ∧
    (op.run c pkg ctx request w).world = c.replay (op.run c pkg ctx request w).calls w ∧
    (∀ c₂ : Controller Feed σ,
      (∀ k : Call Feed, (∀ u, k.userID? = some u → u = ctx.GetUserID) →
        (∀ i, k.feedID? = some i → i = (request.GetIntegerParam "feedID").1) →
        ∀ s, c.sameAnswer c₂ k s) →
      op.run c₂ pkg ctx request w = op.run c pkg ctx request w) := by
  have labels : ∀ k ∈ (op.run c pkg ctx request w).calls,
      (∀ u, k.userID? = some u → u = ctx.GetUserID) ∧
      (∀ i, k.feedID? = some i → i = (request.GetIntegerParam "feedID").1) := by
    cases op <;>
      simp only [Op.run, Controller.CreateFeed, Controller.RefreshFeed, Controller.UpdateFeed,
        Controller.GetFeeds, Controller.GetFeed, Controller.RemoveFeed] <;>
      (repeat' split) <;>
      simp [Run.calls, Event.call?, Call.userID?, Call.feedID?]
  refine ⟨labels, ?_, fun c₂ h => ?_⟩
  · cases op <;>
      simp only [Op.run, Controller.CreateFeed, Controller.RefreshFeed, Controller.UpdateFeed,
        Controller.GetFeeds, Controller.GetFeed, Controller.RemoveFeed] <;>
      (repeat' split) <;>
      simp [Run.calls, Event.call?, Controller.replay, Controller.effect]
  have e1 : ∀ cat url s, c₂.feedHandler.CreateFeed ctx.GetUserID cat url s =
      c.feedHandler.CreateFeed ctx.GetUserID cat url s := fun cat url s =>
    (h (.CreateFeed ctx.GetUserID cat url) (by simp [Call.userID?]) (by simp [Call.feedID?])
      s).symm
  have e2 : ∀ s, c₂.feedHandler.RefreshFeed ctx.GetUserID (request.GetIntegerParam "feedID").1 s =
      c.feedHandler.RefreshFeed ctx.GetUserID (request.GetIntegerParam "feedID").1 s := fun s =>
    (h (.RefreshFeed ctx.GetUserID (request.GetIntegerParam "feedID").1)
      (by simp [Call.userID?]) (by simp [Call.feedID?]) s).symm
  have e3 : ∀ s, c₂.store.GetFeedById ctx.GetUserID (request.GetIntegerParam "feedID").1 s =
      c.store.GetFeedById ctx.GetUserID (request.GetIntegerParam "feedID").1 s := fun s =>
    (h (.GetFeedById ctx.GetUserID (request.GetIntegerParam "feedID").1)
      (by simp [Call.userID?]) (by simp [Call.feedID?]) s).symm
  have e4 : ∀ s, c₂.store.GetFeeds ctx.GetUserID s = c.store.GetFeeds ctx.GetUserID s :=
    fun s => (h (.GetFeeds ctx.GetUserID) (by simp [Call.userID?]) (by simp [Call.feedID?])
      s).symm
  have e5 : ∀ f s, c₂.store.UpdateFeed f s = c.store.UpdateFeed f s := fun f s =>
    (h (.UpdateFeed f) (by simp [Call.userID?]) (by simp [Call.feedID?]) s).symm
  have e6 : ∀ s, c₂.store.FeedExists ctx.GetUserID (request.GetIntegerParam "feedID").1 s =
      c.store.FeedExists ctx.GetUserID (request.GetIntegerParam "feedID").1 s := fun s =>
    (h (.FeedExists ctx.GetUserID (request.GetIntegerParam "feedID").1)
      (by simp [Call.userID?]) (by simp [Call.feedID?]) s).symm
  have e7 : ∀ s, c₂.store.RemoveFeed ctx.GetUserID (request.GetIntegerParam "feedID").1 s =
      c.store.RemoveFeed ctx.GetUserID (request.GetIntegerParam "feedID").1 s := fun s =>
    (h (.RemoveFeed ctx.GetUserID (request.GetIntegerParam "feedID").1)
      (by simp [Call.userID?]) (by simp [Call.feedID?]) s).symm
  cases op <;>
    simp only [Op.run, Controller.CreateFeed, Controller.RefreshFeed, Controller.UpdateFeed,
      Controller.GetFeeds, Controller.GetFeed, Controller.RemoveFeed, e1, e2, e3, e4, e5, e6, e7]

/-- Collaborators serving a single tenant answer like `workingController` on
every call made for user 7 and feed 42. -/
theorem singleTenant_sameAnswer (k : Call String)
    (hu : ∀ u, k.userID? = some u → u = 7) (hi : ∀ i, k.feedID? = some i → i = 42) (s : Nat) :
    workingController.sameAnswer singleTenantController k s := by
  cases k <;>
    simp_all [Call.userID?, Call.feedID?, Controller.sameAnswer, singleTenantController]

/-- Witness of C9: user 7 removes feed 42 with a body that mentions other
identifiers; the store receives RemoveFeed 7 42, and collaborators that differ
for every other user produce the same run. -/
theorem C9_witness :
    Call.RemoveFeed 7 42 ∈ (Op.RemoveFeed.run workingController testPackages ⟨7⟩
      (testRequest (some 42) "user_id=8&feed_id=43") 0).calls ∧
    (7 : Int) = (Context.mk 7).GetUserID ∧
    (42 : Int) = ((testRequest (some 42) "user_id=8&feed_id=43").GetIntegerParam "feedID").1 ∧
    (Op.RemoveFeed.run workingController testPackages ⟨7⟩
      (testRequest (some 42) "user_id=8&feed_id=43") 0).world =
      workingController.replay [.FeedExists 7 42, .RemoveFeed 7 42] 0 ∧
    Op.RemoveFeed.run singleTenantController testPackages ⟨7⟩
        (testRequest (some 42) "user_id=8&feed_id=43") 0 =
      Op.RemoveFeed.run workingController testPackages ⟨7⟩
        (testRequest (some 42) "user_id=8&feed_id=43") 0 :=
  have h := C9_identity_arguments_from_context_and_path Op.RemoveFeed workingController
    testPackages ⟨7⟩ (testRequest (some 42) "user_id=8&feed_id=43") 0
  ⟨by decide, (h.1 (Call.RemoveFeed 7 42) (by decide)).1 7 rfl,
    (h.1 (Call.RemoveFeed 7 42) (by decide)).2 42 rfl, h.2.1,
    h.2.2 singleTenantController (fun k hu hi s => singleTenant_sameAnswer k hu hi s)⟩

/-- C10: UpdateFeed calls store.UpdateFeed exactly when the feedID and the body
both decode and store.GetFeedById returned a non-nil feed with a nil error, and
then applies it to the merged feed in the state left by the lookup; RemoveFeed
calls store.RemoveFeed exactly when the feedID decodes and store.FeedExists
returned true, and then applies it in the state left by the existence check.
Hence a run of any operation whose response is 400 or 404 contains no mutating
store call. In every operation the calls recorded are the calls made: the final
collaborator state is the one reached by performing exactly them, and the run
consults the collaborators through them only. -/
theorem C10_mutation_only_after_validation_and_lookup (c : Controller Feed σ)
    (pkg : Packages Feed) (ctx : Context) (request : Request) (w : σ) :
    ((∃ m, Call.UpdateFeed m ∈ (c.UpdateFeed pkg ctx request w).calls) ↔
      ((request.GetIntegerParam "feedID").2 = none ∧
       (pkg.DecodeFeedModificationPayload request.GetBody).2 = none ∧
       (c.store.GetFeedById ctx.GetUserID (request.GetIntegerParam "feedID").1 w).1.2 = none ∧
       (c.store.GetFeedById ctx.GetUserID (request.GetIntegerParam "feedID").1 w).1.1 ≠ none)) ∧
    ((∃ u i, Call.RemoveFeed u i ∈ (c.RemoveFeed ctx request w).calls) ↔
      ((request.GetIntegerParam "feedID").2 = none ∧
       (c.store.FeedExists ctx.GetUserID (request.GetIntegerParam "feedID").1 w).1 = true)) ∧
    (∀ op : Op, ∀ r ∈ (op.run c pkg ctx request w).responses,
      r.status = 400 ∨ r.status = 404 →
      ∀ k ∈ (op.run c pkg ctx request w).calls, k.isMutatingStore = false) ∧
    ((request.GetIntegerParam "feedID").2 = none →
      (pkg.DecodeFeedModificationPayload request.GetBody).2 = none →
      ∀ f, (c.store.GetFeedById ctx.GetUserID (request.GetIntegerParam "feedID").1 w).1 =
          (some f, none) →
        (c.UpdateFeed pkg ctx request w).world =
          (c.store.UpdateFeed (pkg.Merge f (pkg.DecodeFeedModificationPayload request.GetBody).1)
            (c.store.GetFeedById ctx.GetUserID (request.GetIntegerParam "feedID").1 w).2).2) ∧
    ((request.GetIntegerParam "feedID").2 = none →
      (c.store.FeedExists ctx.GetUserID (request.GetIntegerParam "feedID").1 w).1 = true →
      (c.RemoveFeed ctx request w).world =
        (c.store.RemoveFeed ctx.GetUserID (request.GetIntegerParam "feedID").1
          (c.store.FeedExists ctx.GetUserID (request.GetIntegerParam "feedID").1 w).2).2) ∧
    (∀ op : Op,
      (op.run c pkg ctx request w).world = c.replay (op.run c pkg ctx request w).calls w) ∧
    (∀ (op : Op) (c₂ : Controller Feed σ),
      c.agreeAlong c₂ (op.run c pkg ctx request w).calls w →
      op.run c₂ pkg ctx request w = op.run c pkg ctx request w) := by
  refine ⟨?_, ?_, ?_, ?_, ?_, ?_,
    fun op c₂ h => run_determined_by_calls op c c₂ pkg ctx request w h⟩
  · simp only [Controller.UpdateFeed]
    (repeat' split) <;> simp_all [Run.calls, Event.call?]
  · simp only [Controller.RemoveFeed]
    (repeat' split) <;> simp_all [Run.calls, Event.call?]
  · intro op
    cases op <;>
      simp only [Op.run, Controller.CreateFeed, Controller.RefreshFeed, Controller.UpdateFeed,
        Controller.GetFeeds, Controller.GetFeed, Controller.RemoveFeed] <;>
      (repeat' split) <;>
      simp [Run.calls, Run.responses, Event.call?, Event.write?, Response.status,
        Call.isMutatingStore]
  · intro hid hd f hget
    have h1 := congrArg Prod.fst hget
    have h2 := congrArg Prod.snd hget
    simp only at h1 h2
    simp only [Controller.UpdateFeed, hid, hd, h1, h2]
    split <;> rfl
  · intro hid hx
    simp only [Controller.RemoveFeed, hid, hx]
    (repeat' split) <;> simp_all
  · intro op
    cases op <;>
      simp only [Op.run, Controller.CreateFeed, Controller.RefreshFeed, Controller.UpdateFeed,
        Controller.GetFeeds, Controller.GetFeed, Controller.RemoveFeed] <;>
      (repeat' split) <;>
      simp [Run.calls, Event.call?, Controller.replay, Controller.effect]

/-- Witness of C10: user 8 tries to remove feed 42 of user 7; the answer is 404,
the only call made is the lookup and the store, which counts the calls it
receives, ends at 1. User 7 removing the same feed reaches store.RemoveFeed. -/
theorem C10_witness :
    Response.NotFound ⟨"Feed not found"⟩ ∈ (Op.RemoveFeed.run workingController testPackages ⟨8⟩
      (testRequest (some 42) "") 0).responses ∧
    Call.FeedExists 8 42 ∈ (Op.RemoveFeed.run workingController testPackages ⟨8⟩
      (testRequest (some 42) "") 0).calls ∧
    (Call.FeedExists 8 42 : Call String).isMutatingStore = false ∧
    (Op.RemoveFeed.run workingController testPackages ⟨8⟩ (testRequest (some 42) "") 0).world =
      workingController.replay [.FeedExists 8 42] 0 ∧
    (workingController.RemoveFeed ⟨7⟩ (testRequest (some 42) "") 0).world =
      (workingController.store.RemoveFeed 7 42 1).2 :=
  have h := C10_mutation_only_after_validation_and_lookup workingController testPackages ⟨8⟩
    (testRequest (some 42) "") 0
  have h7 := C10_mutation_only_after_validation_and_lookup workingController testPackages ⟨7⟩
    (testRequest (some 42) "") 0
  ⟨by decide, by decide,
    h.2.2.1 Op.RemoveFeed (Response.NotFound ⟨"Feed not found"⟩)
      (by decide) (Or.inr (by decide)) (Call.FeedExists 8 42) (by decide),
    h.2.2.2.2.2.1 Op.RemoveFeed,
    h7.2.2.2.2.1 (by decide) (by decide)⟩

end Properties

end FeedApi
